import Mathlib

/-!
Shallow embedding of the Vortex extension-manager update routine
(src/src/extensions/extension_manager/index.ts) and of the
notification/dialog action module (src/src/actions/notifications.ts).
JavaScript objects become Lean structures; the per-process registries
(plain JS objects used as maps) become functions `String → Option _`;
JS `delete` and assignment become pointwise updates; a thrown TypeError
becomes `Except.error`.
-/

namespace Vortex

/-- An available-extension record as used by `checkForUpdates`:
`available.find(iter => iter.modId === ext.modId)` and
`current.version === ext.version`. -/
structure IAvailableExtension where
  name : String
  modId : Option Nat
  version : String
deriving DecidableEq, Repr

/-- An installed-extension record: `checkForUpdates` reads `ext.modId`
and `ext.version`. -/
structure IInstalledExtension where
  modId : Option Nat
  version : String
deriving DecidableEq, Repr

/-- The `updateable` list computed inside `checkForUpdates`:
`Object.values(installed).reduce(...)` skipping extensions with
undefined `modId`, looking up the first available record with the same
`modId`, skipping when the versions are equal, and pushing the found
record otherwise. -/
def updateable (installed : List IInstalledExtension)
    (available : List IAvailableExtension) : List IAvailableExtension :=
  installed.foldl (fun prev ext =>
    if ext.modId = none then prev
    else
      match available.find? (fun iter => iter.modId == ext.modId) with
      | none => prev
      | some current =>
        if current.version = ext.version then prev
        else prev ++ [current]) []

/-- The per-extension contribution of one `reduce` step of `updateable`. -/
def updContribution (available : List IAvailableExtension)
    (ext : IInstalledExtension) : List IAvailableExtension :=
  if ext.modId = none then []
  else
    match available.find? (fun iter => iter.modId == ext.modId) with
    | none => []
    | some current =>
      if current.version = ext.version then []
      else [current]

theorem updateable_eq_foldl (installed : List IInstalledExtension)
    (available : List IAvailableExtension) :
    updateable installed available
      = installed.foldl (fun prev ext => prev ++ updContribution available ext) [] := by
  unfold updateable updContribution
  congr 1
  funext prev ext
  by_cases h : ext.modId = none
  · simp [h]
  · simp only [h, if_false]
    cases hf : available.find? (fun iter => iter.modId == ext.modId) with
    | none => simp
    | some current =>
      by_cases hv : current.version = ext.version
      · simp [hv]
      · simp [hv]

theorem mem_foldl_append {β γ : Type} (f : γ → List β) (l : List γ)
    (acc : List β) (r : β) :
    r ∈ l.foldl (fun prev ext => prev ++ f ext) acc
      ↔ r ∈ acc ∨ ∃ ext ∈ l, r ∈ f ext := by
  induction l generalizing acc with
  | nil => simp
  | cons x xs ih =>
    simp only [List.foldl_cons, ih, List.mem_append, List.mem_cons]
    constructor
    · rintro ((h | h) | ⟨ext, hext, hr⟩)
      · exact Or.inl h
      · exact Or.inr ⟨x, Or.inl rfl, h⟩
      · exact Or.inr ⟨ext, Or.inr hext, hr⟩
    · rintro (h | ⟨ext, (rfl | hext), hr⟩)
      · exact Or.inl (Or.inl h)
      · exact Or.inl (Or.inr hr)
      · exact Or.inr ⟨ext, hext, hr⟩

theorem mem_updContribution (available : List IAvailableExtension)
    (ext : IInstalledExtension) (r : IAvailableExtension) :
    r ∈ updContribution available ext
      ↔ ext.modId ≠ none
        ∧ available.find? (fun iter => iter.modId == ext.modId) = some r
        ∧ r.version ≠ ext.version := by
  unfold updContribution
  by_cases h : ext.modId = none
  · simp [h]
  · simp only [h, if_false, ne_eq, not_false_iff, true_and]
    cases hf : available.find? (fun iter => iter.modId == ext.modId) with
    | none => simp
    | some current =>
      by_cases hv : current.version = ext.version
      · simp only [hv, if_true, List.not_mem_nil, false_iff, not_and]
        intro hcr
        rw [Option.some_inj] at hcr
        subst hcr
        simp [hv]
      · simp only [hv, if_false, List.mem_singleton, Option.some_inj]
        constructor
        · rintro rfl
          exact ⟨rfl, hv⟩
        · rintro ⟨rfl, h2⟩
          rfl

/-- Concrete store contents with two available records sharing a modId. -/
def availDup : List IAvailableExtension :=
  [⟨"extA", some 1, "1.0"⟩, ⟨"extB", some 1, "2.0"⟩]

/-- A single installed extension matching the duplicated modId. -/
def instDup : List IInstalledExtension := [⟨some 1, "1.0"⟩]

/-- Claim C1 is false as stated: the record `extB` has a modId equal to the
modId of an installed extension with a defined modId and a version that
differs from that installed extension's version, yet `checkForUpdates`
leaves it out of the updateable set, because `available.find` only ever
inspects the first available record with that modId (here `extA`, whose
version matches). -/
theorem C1_counterexample :
    ((⟨"extB", some 1, "2.0"⟩ : IAvailableExtension) ∈ availDup
      ∧ ∃ ext ∈ instDup, ext.modId ≠ none
          ∧ ext.modId = (⟨"extB", some 1, "2.0"⟩ : IAvailableExtension).modId
          ∧ (⟨"extB", some 1, "2.0"⟩ : IAvailableExtension).version ≠ ext.version)
    ∧ (⟨"extB", some 1, "2.0"⟩ : IAvailableExtension) ∉ updateable instDup availDup := by
  decide

/-- Claim C1 (amended): an available record belongs to the updateable set
computed by `checkForUpdates` exactly when some installed extension has a
defined modId for which that record is the FIRST available record with the
same modId and the two versions differ; installed extensions with an
undefined modId, or with no matching available record, or whose version
equals the matched record's version contribute nothing. -/
theorem C1_updateable_members (installed : List IInstalledExtension)
    (available : List IAvailableExtension) (r : IAvailableExtension) :
    r ∈ updateable installed available
      ↔ ∃ ext ∈ installed, ext.modId ≠ none
          ∧ available.find? (fun iter => iter.modId == ext.modId) = some r
          ∧ r.version ≠ ext.version := by
  rw [updateable_eq_foldl, mem_foldl_append]
  simp only [List.not_mem_nil, false_or]
  constructor
  · rintro ⟨ext, hext, hr⟩
    exact ⟨ext, hext, (mem_updContribution available ext r).mp hr⟩
  · rintro ⟨ext, hext, h⟩
    exact ⟨ext, hext, (mem_updContribution available ext r).mpr h⟩

/-- Observable steps that `checkForUpdates` performs after computing the
updateable list: the info notification carrying the count, one download
and install per updateable extension (`Promise.map`), the
`localState.reloadNecessary = true` write, and the success notification
offering a restart. -/
inductive CheckEvent where
  | sendInfo (count : Nat)
  | install (ext : IAvailableExtension)
  | setReloadNecessary
  | sendSuccess
deriving DecidableEq, Repr

/-- The sequence of observable steps of `checkForUpdates`:
`if (updateable.length === 0) return Promise.resolve();` then the info
notification, then `Promise.map(updateable, downloadAndInstallExtension)`,
and in its `.then` the reload flag and the success notification. -/
def checkForUpdates (installed : List IInstalledExtension)
    (available : List IAvailableExtension) : List CheckEvent :=
  let upd := updateable installed available
  if upd.length = 0 then []
  else
    CheckEvent.sendInfo upd.length ::
      (upd.map CheckEvent.install
        ++ [CheckEvent.setReloadNecessary, CheckEvent.sendSuccess])

/-- Claim C5: when the updateable set is non-empty `checkForUpdates` first
sends the info notification carrying the updateable count, then installs
every extension of the set, and only after all installs does it set
`reloadNecessary` and send the success notification; when the set is empty
it performs no step at all. -/
theorem C5_checkForUpdates_trace (installed : List IInstalledExtension)
    (available : List IAvailableExtension) :
    (updateable installed available ≠ [] →
      checkForUpdates installed available
        = CheckEvent.sendInfo (updateable installed available).length ::
            ((updateable installed available).map CheckEvent.install
              ++ [CheckEvent.setReloadNecessary, CheckEvent.sendSuccess]))
    ∧ (updateable installed available = [] →
        checkForUpdates installed available = []) := by
  constructor
  · intro h
    unfold checkForUpdates
    simp [List.length_eq_zero, h]
  · intro h
    unfold checkForUpdates
    simp [h]

/-- Witness for C5 at concrete stores: a store with one outdated
extension produces the full trace, a store with no installed extensions
produces the empty trace. -/
theorem C5_checkForUpdates_trace_witness :
    checkForUpdates [⟨some 1, "1.0"⟩] [⟨"extA", some 1, "2.0"⟩]
      = [CheckEvent.sendInfo 1, CheckEvent.install ⟨"extA", some 1, "2.0"⟩,
         CheckEvent.setReloadNecessary, CheckEvent.sendSuccess]
    ∧ checkForUpdates [] [⟨"extA", some 1, "2.0"⟩] = [] := by
  constructor
  · have h := (C5_checkForUpdates_trace [⟨some 1, "1.0"⟩] [⟨"extA", some 1, "2.0"⟩]).1
      (by decide)
    rw [h]
    decide
  · exact (C5_checkForUpdates_trace [] [⟨"extA", some 1, "2.0"⟩]).2 (by decide)

/-- Observable steps of `updateAvailableExtensions`: the error
notification from the `.catch`, the two store dispatches of the `.then`,
and the final run of `checkForUpdates`. -/
inductive UpdAvailEvent where
  | showErrorNotification
  | setExtensionsUpdate (time : Nat)
  | setAvailableExtensions (exts : List IAvailableExtension)
  | runCheckForUpdates
deriving DecidableEq, Repr

/-- The `.catch` stage of `updateAvailableExtensions`: a rejection of
`fetchAvailableExtensions` shows the error notification and substitutes
the recovery value `{ time: null, extensions: [] }` (null modelled as
`none`); a fulfilled fetch passes its `{ time, extensions }` through. -/
def fetchRecovery {ε : Type} (fetched : Except ε (Nat × List IAvailableExtension)) :
    List UpdAvailEvent × (Option Nat × List IAvailableExtension) :=
  match fetched with
  | Except.error _ => ([UpdAvailEvent.showErrorNotification], (none, []))
  | Except.ok (t, exts) => ([], (some t, exts))

/-- `updateAvailableExtensions`: after the `.catch` stage, the `.then`
handler unconditionally calls `time.getTime()` before either dispatch;
on a null time that call throws, rejecting the returned promise
(`Except.error`) with nothing dispatched; otherwise it dispatches
`setExtensionsUpdate`, then `setAvailableExtensions`, then runs
`checkForUpdates`. -/
def updateAvailableExtensions {ε : Type}
    (fetched : Except ε (Nat × List IAvailableExtension)) :
    List UpdAvailEvent × Except Unit Unit :=
  let step := fetchRecovery fetched
  match step.2.1 with
  | none => (step.1, Except.error ())
  | some t =>
    (step.1 ++ [UpdAvailEvent.setExtensionsUpdate t,
                UpdAvailEvent.setAvailableExtensions step.2.2,
                UpdAvailEvent.runCheckForUpdates],
     Except.ok ())

/-- Claim C8: if `fetchAvailableExtensions` rejects,
`updateAvailableExtensions` shows the error notification and then the
promise it returns rejects without dispatching `setExtensionsUpdate` or
`setAvailableExtensions`, because `getTime()` is called on the null time
of the recovery value. -/
theorem C8_fetch_failure_rejects {ε : Type} (e : ε)
    (fetched : Except ε (Nat × List IAvailableExtension))
    (h : fetched = Except.error e) :
    updateAvailableExtensions fetched
        = ([UpdAvailEvent.showErrorNotification], Except.error ())
    ∧ (∀ t, UpdAvailEvent.setExtensionsUpdate t ∉ (updateAvailableExtensions fetched).1)
    ∧ (∀ exts, UpdAvailEvent.setAvailableExtensions exts
        ∉ (updateAvailableExtensions fetched).1) := by
  subst h
  refine ⟨rfl, ?_, ?_⟩
  · intro t
    simp [updateAvailableExtensions, fetchRecovery]
  · intro exts
    simp [updateAvailableExtensions, fetchRecovery]

/-- Witness for C8 at a concrete rejected fetch. -/
theorem C8_fetch_failure_rejects_witness :
    updateAvailableExtensions (Except.error () :
        Except Unit (Nat × List IAvailableExtension))
      = ([UpdAvailEvent.showErrorNotification], Except.error ()) :=
  (C8_fetch_failure_rejects () (Except.error ()) rfl).1

/-- Pointwise update of a JS-object-as-map: assignment stores `some v`,
`delete` stores `none`. -/
def setKey {β : Type} (m : String → Option β) (k : String) (v : Option β) :
    String → Option β :=
  fun x => if x = k then v else m x

theorem setKey_same {β : Type} (m : String → Option β) (k : String) (v : Option β) :
    setKey m k v k = v := by
  simp [setKey]

theorem setKey_other {β : Type} (m : String → Option β) (k x : String)
    (v : Option β) (h : x ≠ k) : setKey m k v x = m x := by
  simp [setKey, h]

/-- One entry of `INotification.actions`: a button title and its callback
(`NotificationFunc`), with the callback type kept abstract as `α`. -/
structure INotificationAction (α : Type) where
  title : String
  action : α

/-- The fields of `INotification` that `addNotification` reads: the
optional id, the message, the optional auto-dismiss delay `displayMS`,
and the optional action list. -/
structure INotification (α : Type) where
  id : Option String
  message : String
  displayMS : Option Nat
  actions : Option (List (INotificationAction α))

/-- A store-side action record after
`storeNoti.actions = (storeNoti.actions || []).map(action => ({title: action.title}))`:
only the title survives. -/
structure IStoreAction where
  title : String
deriving DecidableEq, Repr

/-- The notification record dispatched by `startNotification`: the
JSON round-trip strips the callback functions, `storeNoti.process` records
the originating process type, and the actions carry titles only. -/
structure IStoreNotification where
  id : String
  message : String
  displayMS : Option Nat
  actions : List IStoreAction
  process : String
deriving DecidableEq, Repr

/-- The two module-local registries of notifications.ts: `timers`
(id to the pending timeout's delay) and `notificationActions`
(id to the registered callback list). -/
structure NotiState (α : Type) where
  timers : String → Option Nat
  notificationActions : String → Option (List α)

/-- What one call of `addNotification` produces: the updated registries,
the notification dispatched to the store, and whether a timeout was
scheduled. -/
structure AddNotiResult (α : Type) where
  state : NotiState α
  dispatched : IStoreNotification
  timerScheduled : Bool

/-- `addNotification`: copies the input, generates a fresh id when none is
set, otherwise cancels a pending timeout for that id (deleting its
`timers` and `notificationActions` entries), registers the action
callbacks under the id, dispatches the JSON-stripped store notification
with the process type recorded, and schedules the auto-dismiss timeout
when `displayMS` is defined. `freshId` stands for the `shortid()` value
and `processType` for `process.type`. -/
def addNotification {α : Type} (notification : INotification α)
    (freshId processType : String) (s : NotiState α) : AddNotiResult α :=
  let notiId : String :=
    match notification.id with
    | none => freshId
    | some i => i
  let s1 : NotiState α :=
    match notification.id with
    | none => s
    | some i =>
      if s.timers i ≠ none then
        ⟨setKey s.timers i none, setKey s.notificationActions i none⟩
      else s
  let cbs : List α :=
    match notification.actions with
    | none => []
    | some acts => acts.map (fun a => a.action)
  let s2 : NotiState α := ⟨s1.timers, setKey s1.notificationActions notiId (some cbs)⟩
  let storeNoti : IStoreNotification :=
    { id := notiId
      message := notification.message
      displayMS := notification.displayMS
      actions :=
        match notification.actions with
        | none => []
        | some acts => acts.map (fun a => ⟨a.title⟩)
      process := processType }
  match notification.displayMS with
  | none => ⟨s2, storeNoti, false⟩
  | some ms => ⟨⟨setKey s2.timers notiId (some ms), s2.notificationActions⟩, storeNoti, true⟩

/-- What `dismissNotification` produces: the registries with both entries
for the id deleted, and the id carried by the dispatched
`stopNotification` action. -/
structure DismissNotiResult (α : Type) where
  state : NotiState α
  stopDispatched : String

/-- `dismissNotification`: deletes `timers[id]` and
`notificationActions[id]` and dispatches `stopNotification(id)`. -/
def dismissNotification {α : Type} (id : String) (s : NotiState α) :
    DismissNotiResult α :=
  ⟨⟨setKey s.timers id none, setKey s.notificationActions id none⟩, id⟩

/-- Claim C2: `addNotification` registers the notification's action
callbacks, in list order, under the notification's id, and
`dismissNotification id` deletes both the callback-registry and the
timer-registry entry for that id while leaving every other id's entries
unchanged. -/
theorem C2_registry_lifecycle {α : Type} (n : INotification α)
    (freshId processType i : String) (s t : NotiState α)
    (hid : n.id = some i) :
    (addNotification n freshId processType s).state.notificationActions i
        = some ((n.actions.getD []).map (fun a => a.action))
    ∧ (dismissNotification i t).state.notificationActions i = none
    ∧ (dismissNotification i t).state.timers i = none
    ∧ (∀ j, j ≠ i →
        (dismissNotification i t).state.notificationActions j
            = t.notificationActions j
        ∧ (dismissNotification i t).state.timers j = t.timers j) := by
  refine ⟨?_, ?_, ?_, ?_⟩
  · unfold addNotification
    cases hms : n.displayMS <;>
      simp only [hid, hms] <;>
      cases hacts : n.actions <;>
        simp [setKey_same, hacts, Option.getD]
  · exact setKey_same _ _ _
  · exact setKey_same _ _ _
  · intro j hj
    exact ⟨setKey_other _ _ _ _ hj, setKey_other _ _ _ _ hj⟩

/-- Witness for C2 at a concrete notification and registries. -/
theorem C2_registry_lifecycle_witness :
    ((addNotification
        (⟨some "n1", "msg", none, some [⟨"OK", 7⟩]⟩ : INotification Nat)
        "fresh" "renderer"
        ⟨fun _ => none, fun _ => none⟩).state.notificationActions "n1"
      = some [7])
    ∧ (dismissNotification "n1"
        (⟨fun _ => none, fun _ => none⟩ : NotiState Nat)).state.timers "n1" = none := by
  have h := C2_registry_lifecycle
    (⟨some "n1", "msg", none, some [⟨"OK", 7⟩]⟩ : INotification Nat)
    "fresh" "renderer" "n1"
    ⟨fun _ => none, fun _ => none⟩ ⟨fun _ => none, fun _ => none⟩ rfl
  exact ⟨h.1, h.2.2.1⟩

/-- Claim C6: when `displayMS` is defined, `addNotification` schedules the
auto-dismiss timeout under the dispatched id, and the timer's callback
(`dispatch(dismissNotification(noti.id))`) deletes the timer and the
callback-registry entries of that id and dispatches the stop action; when
`displayMS` is undefined no timer is created (assuming the generated id is
fresh in the timer registry). -/
theorem C6_auto_dismiss {α : Type} (n : INotification α)
    (freshId processType : String) (s : NotiState α)
    (hfresh : n.id = none → s.timers freshId = none) :
    (∀ ms, n.displayMS = some ms →
      (addNotification n freshId processType s).timerScheduled = true
      ∧ (addNotification n freshId processType s).state.timers
          (addNotification n freshId processType s).dispatched.id = some ms
      ∧ (dismissNotification (addNotification n freshId processType s).dispatched.id
            (addNotification n freshId processType s).state).state.timers
          (addNotification n freshId processType s).dispatched.id = none
      ∧ (dismissNotification (addNotification n freshId processType s).dispatched.id
            (addNotification n freshId processType s).state).state.notificationActions
          (addNotification n freshId processType s).dispatched.id = none
      ∧ (dismissNotification (addNotification n freshId processType s).dispatched.id
            (addNotification n freshId processType s).state).stopDispatched
          = (addNotification n freshId processType s).dispatched.id)
    ∧ (n.displayMS = none →
      (addNotification n freshId processType s).timerScheduled = false
      ∧ (addNotification n freshId processType s).state.timers
          (addNotification n freshId processType s).dispatched.id = none) := by
  constructor
  · intro ms hms
    refine ⟨?_, ?_, ?_, ?_, ?_⟩ <;>
      cases hni : n.id <;>
        simp [addNotification, dismissNotification, hms, hni, setKey]
  · intro hms
    constructor
    · cases hni : n.id <;> simp [addNotification, hms, hni]
    · cases hni : n.id with
      | none =>
        simp [addNotification, hms, hni]
        exact hfresh hni
      | some i =>
        by_cases ht : s.timers i = none
        · simp [addNotification, hms, hni, ht]
        · simp [addNotification, hms, hni, ht, setKey]

/-- Witness for C6 at concrete notifications: one with a 100ms
auto-dismiss and one without. -/
theorem C6_auto_dismiss_witness :
    ((addNotification (⟨some "n1", "msg", some 100, none⟩ : INotification Nat)
        "fresh" "browser" ⟨fun _ => none, fun _ => none⟩).timerScheduled = true
      ∧ (addNotification (⟨some "n1", "msg", some 100, none⟩ : INotification Nat)
          "fresh" "browser" ⟨fun _ => none, fun _ => none⟩).state.timers "n1"
        = some 100)
    ∧ (addNotification (⟨none, "msg", none, none⟩ : INotification Nat)
        "fresh" "browser" ⟨fun _ => none, fun _ => none⟩).timerScheduled = false := by
  have h1 := (C6_auto_dismiss (⟨some "n1", "msg", some 100, none⟩ : INotification Nat)
    "fresh" "browser" ⟨fun _ => none, fun _ => none⟩
    (by intro h; cases h)).1 100 rfl
  have h2 := (C6_auto_dismiss (⟨none, "msg", none, none⟩ : INotification Nat)
    "fresh" "browser" ⟨fun _ => none, fun _ => none⟩
    (by intro h; rfl)).2 rfl
  exact ⟨⟨h1.1, h1.2.1⟩, h2.1⟩

/-- Claim C10: the notification dispatched to the store carries actions
reduced to their titles only (no callback functions reach the Redux
store), records the originating process type, uses the generated fresh id
when the input has none; re-adding an id that has an active timer cancels
that timer (the surviving timer entry is exactly the new `displayMS`) and
discards the old callbacks, replacing them with the new ones. -/
theorem C10_store_purity {α : Type} (n : INotification α)
    (freshId processType : String) (s : NotiState α) :
    (addNotification n freshId processType s).dispatched.actions
        = (n.actions.getD []).map (fun a => (⟨a.title⟩ : IStoreAction))
    ∧ (addNotification n freshId processType s).dispatched.process = processType
    ∧ (n.id = none → (addNotification n freshId processType s).dispatched.id = freshId)
    ∧ (∀ i, n.id = some i → s.timers i ≠ none →
        (addNotification n freshId processType s).state.notificationActions i
            = some ((n.actions.getD []).map (fun a => a.action))
        ∧ (addNotification n freshId processType s).state.timers i = n.displayMS) := by
  refine ⟨?_, ?_, ?_, ?_⟩
  · cases hms : n.displayMS <;> cases hacts : n.actions <;>
      simp [addNotification, hms, hacts]
  · cases hms : n.displayMS <;> simp [addNotification, hms]
  · intro hni
    cases hms : n.displayMS <;> simp [addNotification, hms, hni]
  · intro i hni ht
    constructor
    · cases hms : n.displayMS <;> cases hacts : n.actions <;>
        simp [addNotification, hms, hni, hacts, ht, setKey]
    · cases hms : n.displayMS <;>
        simp [addNotification, hms, hni, ht, setKey]

/-- Witness for C10: re-adding id `n1` while it holds an active timer. -/
theorem C10_store_purity_witness :
    ((addNotification
        (⟨some "n1", "msg", none, some [⟨"OK", 3⟩]⟩ : INotification Nat)
        "fresh" "renderer"
        ⟨fun k => if k = "n1" then some 50 else none,
         fun k => if k = "n1" then some [9] else none⟩).dispatched.actions
      = [⟨"OK"⟩])
    ∧ ((addNotification
        (⟨some "n1", "msg", none, some [⟨"OK", 3⟩]⟩ : INotification Nat)
        "fresh" "renderer"
        ⟨fun k => if k = "n1" then some 50 else none,
         fun k => if k = "n1" then some [9] else none⟩).state.notificationActions "n1"
      = some [3])
    ∧ ((addNotification
        (⟨some "n1", "msg", none, some [⟨"OK", 3⟩]⟩ : INotification Nat)
        "fresh" "renderer"
        ⟨fun k => if k = "n1" then some 50 else none,
         fun k => if k = "n1" then some [9] else none⟩).state.timers "n1"
      = none) := by
  have h := C10_store_purity
    (⟨some "n1", "msg", none, some [⟨"OK", 3⟩]⟩ : INotification Nat)
    "fresh" "renderer"
    ⟨fun k => if k = "n1" then some 50 else none,
     fun k => if k = "n1" then some [9] else none⟩
  have h4 := h.2.2.2 "n1" rfl (by simp)
  exact ⟨h.1, h4.1, h4.2⟩

/-- A `NotificationFunc` abstracted by its observable interaction with the
dismiss continuation it receives: whether it calls it. -/
structure NFunc where
  callsDismiss : Bool
deriving DecidableEq, Repr

/-- The observable outcome of `fireNotificationAction`: whether the
synchronous IPC call was made, which callback (if any) was invoked, and
whether the `dismiss` argument of the call ended up being called. -/
structure FireResult where
  usedIpc : Bool
  invoked : Option NFunc
  dismissCalled : Bool
deriving DecidableEq, Repr

/-- The `ipcMain.on('fire-notification-action')` handler: it initialises
`event.returnValue = false`, evaluates
`notificationActions[notiId][action]` (a TypeError — `Except.error` —
when the id has no registry entry), and when a callback is present
invokes it with a continuation that sets `event.returnValue = true`; the
final `returnValue` answers the synchronous call. -/
def fireActionHandler (reg : String → Option (List NFunc))
    (notiId : String) (action : Nat) : Except Unit Bool :=
  match reg notiId with
  | none => Except.error ()
  | some funcs =>
    match funcs.get? action with
    | none => Except.ok false
    | some f => Except.ok (if f.callsDismiss then true else false)

/-- `fireNotificationAction`: when `notiProcess === process.type` it reads
`notificationActions[notiId][action]` locally (a TypeError when the id is
unregistered) and invokes the callback — if defined — with the given
dismiss; otherwise it performs `ipcRenderer.sendSync('fire-notification-action', ...)`
and calls its own `dismiss` argument exactly when the synchronous reply is
true. -/
def fireNotificationAction (reg : String → Option (List NFunc))
    (notiId notiProcess processType : String) (action : Nat) :
    Except Unit FireResult :=
  if notiProcess = processType then
    match reg notiId with
    | none => Except.error ()
    | some funcs =>
      match funcs.get? action with
      | none => Except.ok ⟨false, none, false⟩
      | some f => Except.ok ⟨false, some f, f.callsDismiss⟩
  else
    match fireActionHandler reg notiId action with
    | Except.error e => Except.error e
    | Except.ok res =>
      Except.ok ⟨true, (reg notiId).bind (fun funcs => funcs.get? action), res⟩

/-- Claim C3 is false as stated: with an empty callback registry no
callback is registered at index 0 of id `n1`, yet the same-process call
does not complete without error — `notificationActions[notiId]` is
undefined and indexing it throws. -/
theorem C3_counterexample :
    ((fun _ => none : String → Option (List NFunc)) "n1" = none)
    ∧ fireNotificationAction (fun _ => none) "n1" "browser" "browser" 0
        = Except.error () := by
  exact ⟨rfl, rfl⟩

/-- Claim C3 (amended): for every id that HAS an entry in the callback
registry, the same-process call invokes the callback registered at the
given index, passing the dismiss function through (the dismiss argument
is called exactly as that callback uses it), and when the entry holds no
callback at that index nothing is invoked and the call completes without
error; for an unregistered id the lookup itself throws. -/
theorem C3_fire_local (reg : String → Option (List NFunc))
    (notiId processType : String) (action : Nat) (funcs : List NFunc)
    (h : reg notiId = some funcs) :
    (∀ f, funcs.get? action = some f →
      fireNotificationAction reg notiId processType processType action
        = Except.ok ⟨false, some f, f.callsDismiss⟩)
    ∧ (funcs.get? action = none →
      fireNotificationAction reg notiId processType processType action
        = Except.ok ⟨false, none, false⟩) := by
  constructor
  · intro f hf
    simp only [List.get?_eq_getElem?] at hf
    simp [fireNotificationAction, h, hf]
  · intro hf
    simp only [List.get?_eq_getElem?] at hf
    simp [fireNotificationAction, h, hf]

/-- Witness for C3 at a concrete registry: id `n1` holds one callback;
index 0 invokes it, index 5 is out of range and completes without
error. -/
theorem C3_fire_local_witness :
    (fireNotificationAction
        (fun k => if k = "n1" then some [⟨true⟩] else none)
        "n1" "browser" "browser" 0
      = Except.ok ⟨false, some ⟨true⟩, true⟩)
    ∧ (fireNotificationAction
        (fun k => if k = "n1" then some [⟨true⟩] else none)
        "n1" "browser" "browser" 5
      = Except.ok ⟨false, none, false⟩) := by
  have h0 := (C3_fire_local
    (fun k => if k = "n1" then some [⟨true⟩] else none)
    "n1" "browser" 0 [⟨true⟩] (by simp)).1 ⟨true⟩ rfl
  have h5 := (C3_fire_local
    (fun k => if k = "n1" then some [⟨true⟩] else none)
    "n1" "browser" 5 [⟨true⟩] (by simp)).2 rfl
  exact ⟨h0, h5⟩

/-- Claim C4: for a registered id, `fireNotificationAction` takes the
synchronous IPC path exactly when the notification's owning process
differs from the current process type; on that path its own dismiss
argument is called if and only if the remote callback invoked the
dismiss continuation handed to it during the synchronous call, and on
the same-process path no IPC call is made. -/
theorem C4_ipc_bridge (reg : String → Option (List NFunc))
    (notiId notiProcess processType : String) (action : Nat)
    (funcs : List NFunc) (h : reg notiId = some funcs) :
    ∃ r : FireResult,
      fireNotificationAction reg notiId notiProcess processType action
          = Except.ok r
      ∧ (r.usedIpc = true ↔ notiProcess ≠ processType)
      ∧ (notiProcess ≠ processType →
          (r.dismissCalled = true
            ↔ ∃ f, funcs.get? action = some f ∧ f.callsDismiss = true)) := by
  by_cases hp : notiProcess = processType
  · cases hf : funcs.get? action with
    | none =>
      refine ⟨⟨false, none, false⟩, ?_, by simp [hp], by simp [hp]⟩
      simp only [List.get?_eq_getElem?] at hf
      simp [fireNotificationAction, hp, h, hf]
    | some f =>
      refine ⟨⟨false, some f, f.callsDismiss⟩, ?_, by simp [hp], by simp [hp]⟩
      simp only [List.get?_eq_getElem?] at hf
      simp [fireNotificationAction, hp, h, hf]
  · cases hf : funcs.get? action with
    | none =>
      refine ⟨⟨true, none, false⟩, ?_, by simp [hp], ?_⟩
      · simp only [List.get?_eq_getElem?] at hf
        simp [fireNotificationAction, fireActionHandler, hp, h, hf]
      · intro _
        simp [hf]
    | some f =>
      refine ⟨⟨true, some f, f.callsDismiss⟩, ?_, by simp [hp], ?_⟩
      · simp only [List.get?_eq_getElem?] at hf
        simp [fireNotificationAction, fireActionHandler, hp, h, hf]
      · intro _
        cases hd : f.callsDismiss <;> simp [hf, hd]

/-- Witness for C4 at a concrete registry, a cross-process call whose
remote callback calls its continuation. -/
theorem C4_ipc_bridge_witness :
    ∃ r : FireResult,
      fireNotificationAction
          (fun k => if k = "n1" then some [⟨true⟩] else none)
          "n1" "browser" "renderer" 0
        = Except.ok r
      ∧ (r.usedIpc = true ↔ ("browser" : String) ≠ "renderer")
      ∧ (("browser" : String) ≠ "renderer" →
          (r.dismissCalled = true
            ↔ ∃ f, ([⟨true⟩] : List NFunc).get? 0 = some f
                ∧ f.callsDismiss = true)) :=
  C4_ipc_bridge (fun k => if k = "n1" then some [⟨true⟩] else none)
    "n1" "browser" "renderer" 0 [⟨true⟩] (by simp)

/-- One entry of the `DialogActions` list passed to `showDialog`: a button
label, the `default === true` marker, and the optional user callback
(abstract type `α`, `none` when the JS field is absent/falsy). -/
structure IDialogAction (α : Type) where
  label : String
  isDefault : Bool
  action : Option α

/-- The payload dispatched by `addDialog(id, type, title, content,
defaultAction, actions)`, with the content kept opaque. -/
structure AddDialogPayload where
  id : String
  dialogType : String
  title : String
  defaultAction : Option String
  actions : List String
deriving DecidableEq, Repr

/-- Dialog-side global state: the `__dialogCallbacks` registry (modelled by
the captured action list of the stored closure) and, per dialog id, the
resolution value of the promise returned by `showDialog` (`none` while
pending). -/
structure DialogsState (α ι : Type) where
  callbacks : String → Option (List (IDialogAction α))
  resolved : String → Option (String × Option ι)

/-- `showDialog`: generates an id, computes the default action's label via
`actions.find(iter => iter.default === true)`, dispatches `addDialog` with
the labels of all actions in order, and stores the resolver callback under
the id; the returned promise is pending. -/
def showDialog {α ι : Type} (dialogType title : String)
    (acts : List (IDialogAction α)) (freshId : String) (s : DialogsState α ι) :
    DialogsState α ι × AddDialogPayload :=
  (⟨setKey s.callbacks freshId (some acts), setKey s.resolved freshId none⟩,
   ⟨freshId, dialogType, title,
    (acts.find? (fun a => a.isDefault)).map (fun a => a.label),
    acts.map (fun a => a.label)⟩)

/-- The stored dialog callback: it looks up
`actions.find(iter => iter.label === actionKey)` — a TypeError
(`Except.error`) when no action matches, since `action.action` is then
read off `undefined` — otherwise invokes the found action's callback when
truthy and resolves with `{ action: actionKey, input }`. -/
def runDialogCallback {α ι : Type} (acts : List (IDialogAction α))
    (actionKey : String) (input : Option ι) :
    Except Unit (Option α × String × Option ι) :=
  match acts.find? (fun a => a.label == actionKey) with
  | none => Except.error ()
  | some a => Except.ok (a.action, actionKey, input)

/-- The outcome of one `closeDialog` call: the new state, the id carried
by the dispatched `dismissDialog`, the user callback invoked by the dialog
callback (if any), and whether the catch branch logged an error. The
function is total: `closeDialog` never lets the error propagate. -/
structure CloseDialogResult (α ι : Type) where
  state : DialogsState α ι
  dismissDispatched : String
  invokedUserAction : Option α
  loggedError : Bool

/-- `closeDialog`: dispatches `dismissDialog(id)`, then inside
`try`/`catch`/`finally` invokes the stored callback — the registry check
is `!== null`, so a missing (undefined) entry is still invoked and the
resulting TypeError is caught and logged — and finally deletes the
registry entry in every case. -/
def closeDialog {α ι : Type} (id actionKey : String) (input : Option ι)
    (s : DialogsState α ι) : CloseDialogResult α ι :=
  match s.callbacks id with
  | some acts =>
    match runDialogCallback acts actionKey input with
    | Except.ok (ua, key, inp) =>
      ⟨⟨setKey s.callbacks id none, setKey s.resolved id (some (key, inp))⟩,
       id, ua, false⟩
    | Except.error _ =>
      ⟨⟨setKey s.callbacks id none, s.resolved⟩, id, none, true⟩
  | none =>
    ⟨⟨setKey s.callbacks id none, s.resolved⟩, id, none, true⟩

/-- Claim C7: the dialog dispatched by `showDialog` carries the label of
the action marked default (or none when no action is marked) and the
labels of all actions in their given order; the promise is pending until
`closeDialog` is called with that dialog's id and an action key among the
dialog's labels, at which point it resolves with that action key and the
optional input payload, while `closeDialog` on any other id leaves it
pending. -/
theorem C7_dialog_flow {α ι : Type} (dialogType title : String)
    (acts : List (IDialogAction α)) (freshId : String) (s : DialogsState α ι)
    (actionKey : String) (input : Option ι) (a : IDialogAction α)
    (hfind : acts.find? (fun x => x.label == actionKey) = some a) :
    ((showDialog dialogType title acts freshId s).2.defaultAction
        = (acts.find? (fun x => x.isDefault)).map (fun x => x.label))
    ∧ ((showDialog dialogType title acts freshId s).2.actions
        = acts.map (fun x => x.label))
    ∧ ((showDialog dialogType title acts freshId s).1.resolved freshId = none)
    ∧ ((closeDialog freshId actionKey input
          (showDialog dialogType title acts freshId s).1).state.resolved freshId
        = some (actionKey, input))
    ∧ (∀ other, other ≠ freshId →
        (closeDialog other actionKey input
            (showDialog dialogType title acts freshId s).1).state.resolved freshId
          = none) := by
  refine ⟨rfl, rfl, setKey_same _ _ _, ?_, ?_⟩
  · simp [closeDialog, showDialog, runDialogCallback, hfind, setKey]
  · intro other hother
    have hne : freshId ≠ other := fun h => hother h.symm
    cases hc : (showDialog dialogType title acts freshId s).1.callbacks other with
    | none =>
      simp only [closeDialog, hc]
      simp [showDialog, setKey]
    | some acts2 =>
      cases hr : runDialogCallback acts2 actionKey input with
      | error e =>
        simp only [closeDialog, hc, hr]
        simp [showDialog, setKey]
      | ok v =>
        simp only [closeDialog, hc, hr]
        rw [setKey_other _ _ _ _ hne]
        simp [showDialog, setKey]

/-- Witness for C7 at a concrete dialog with two actions, closing with the
non-default action `Cancel`. -/
theorem C7_dialog_flow_witness :
    ((showDialog "question" "Sure?"
        ([⟨"OK", true, some 1⟩, ⟨"Cancel", false, none⟩] : List (IDialogAction Nat))
        "d1" (⟨fun _ => none, fun _ => none⟩ : DialogsState Nat Nat)).2.defaultAction
      = (([⟨"OK", true, some 1⟩, ⟨"Cancel", false, none⟩] :
            List (IDialogAction Nat)).find? (fun x => x.isDefault)).map
          (fun x => x.label))
    ∧ ((closeDialog "d1" "Cancel" (some 5)
          (showDialog "question" "Sure?"
            ([⟨"OK", true, some 1⟩, ⟨"Cancel", false, none⟩] : List (IDialogAction Nat))
            "d1" (⟨fun _ => none, fun _ => none⟩ : DialogsState Nat Nat)).1).state.resolved "d1"
        = some ("Cancel", some 5)) := by
  have h := C7_dialog_flow "question" "Sure?"
    ([⟨"OK", true, some 1⟩, ⟨"Cancel", false, none⟩] : List (IDialogAction Nat))
    "d1" (⟨fun _ => none, fun _ => none⟩ : DialogsState Nat Nat)
    "Cancel" (some 5) ⟨"Cancel", false, none⟩ (by simp)
  exact ⟨h.1, h.2.2.2.1⟩

/-- Claim C9: every `closeDialog` call dispatches the dismissal and ends
with the callback-registry entry for the id deleted, even when the
invoked callback throws (the error is caught and logged, never
propagated — `closeDialog` is a total function); hence a second
`closeDialog` on the same id finds no entry, invokes no user action, only
logs, and again raises nothing. -/
theorem C9_close_at_most_once {α ι : Type} (id aKey1 aKey2 : String)
    (input1 input2 : Option ι) (s : DialogsState α ι) :
    ((closeDialog id aKey1 input1 s).dismissDispatched = id)
    ∧ ((closeDialog id aKey1 input1 s).state.callbacks id = none)
    ∧ ((closeDialog id aKey2 input2
          (closeDialog id aKey1 input1 s).state).dismissDispatched = id)
    ∧ ((closeDialog id aKey2 input2
          (closeDialog id aKey1 input1 s).state).invokedUserAction = none)
    ∧ ((closeDialog id aKey2 input2
          (closeDialog id aKey1 input1 s).state).loggedError = true)
    ∧ ((closeDialog id aKey2 input2
          (closeDialog id aKey1 input1 s).state).state.callbacks id = none) := by
  have hdel : (closeDialog id aKey1 input1 s).state.callbacks id = none := by
    cases hc : s.callbacks id with
    | none => simp [closeDialog, hc, setKey]
    | some acts =>
      cases hr : runDialogCallback acts aKey1 input1 with
      | error e => simp [closeDialog, hc, hr, setKey]
      | ok v => simp [closeDialog, hc, hr, setKey]
  have hdis : ∀ (aKey : String) (input : Option ι) (t : DialogsState α ι),
      (closeDialog id aKey input t).dismissDispatched = id := by
    intro aKey input t
    cases hc : t.callbacks id with
    | none => simp [closeDialog, hc]
    | some acts =>
      cases hr : runDialogCallback acts aKey input with
      | error e => simp [closeDialog, hc, hr]
      | ok v => simp [closeDialog, hc, hr]
  have hsecond : ∀ (aKey : String) (input : Option ι) (t : DialogsState α ι),
      t.callbacks id = none →
      (closeDialog id aKey input t).invokedUserAction = none
      ∧ (closeDialog id aKey input t).loggedError = true
      ∧ (closeDialog id aKey input t).state.callbacks id = none := by
    intro aKey input t hc
    refine ⟨?_, ?_, ?_⟩ <;> simp [closeDialog, hc, setKey]
  obtain ⟨h4, h5, h6⟩ := hsecond aKey2 input2 _ hdel
  exact ⟨hdis aKey1 input1 s, hdel, hdis aKey2 input2 _, h4, h5, h6⟩

end Vortex
